import Mathlib

/-! # ip-prayer-bot: the request lifecycle of `main.go`

A shallow embedding of `handlePrayer`, `handleButton` and `newID` of `main.go`.

* Go strings are Lean `String`s (the texts of platform events are valid UTF-8).  The only
  string operation the handlers perform besides concatenation is `strings.SplitN(·, ":", 2)`;
  the separator is one ASCII character, so cutting at the first `':'` character is the same as
  cutting at the first `':'` byte.
* A byte is a natural number below 256.
* The package-level map `prayerRequests` is a finite map `Store` (an association list with
  distinct keys); `m[k] = v` is `AList.insert`, `v, ok := m[k]` is `AList.lookup` and
  `delete(m, k)` is `AList.erase`.
* The package-level variables `modChannelID` and `publicChannelID` are the fields of `Config`.
* Every call on the `*discordgo.Session` and every `log.Println` is recorded, in program order,
  as a `Call`.  What the platform answers is given by a `Session` value: a handler run is a
  function of the store, the event and these answers.
-/

namespace PrayerBot

/-! ## Data model -/

/-- The anonymous struct stored in `prayerRequests` (main.go, lines 23-27). -/
structure PrayerRequest where
  UserID : String
  Username : String
  Text : String
  deriving DecidableEq, Repr

/-- The map `prayerRequests`: identifier to pending request. -/
abbrev Store := AList (fun _ : String => PrayerRequest)

/-- The two package-level channel identifiers (main.go, lines 18-21). -/
structure Config where
  modChannelID : String
  publicChannelID : String
  deriving DecidableEq, Repr

/-- The two `discordgo.InteractionResponseType` values the handlers use. -/
inductive InteractionResponseType where
  | ChannelMessageWithSource
  | DeferredMessageUpdate
  deriving DecidableEq, Repr

/-- The fields of `discordgo.InteractionResponse` the handlers set (`RespType` is its field
`Type`); `Data` is `none` when the response carries no data, otherwise the pair
(ephemeral flag set, content). -/
structure InteractionResponse where
  RespType : InteractionResponseType
  Data : Option (Bool × String)
  deriving DecidableEq, Repr

/-- The two `discordgo.ButtonStyle` values the handlers use. -/
inductive ButtonStyle where
  | SuccessButton
  | DangerButton
  deriving DecidableEq, Repr

/-- The fields of `discordgo.Button` the handlers set. -/
structure Button where
  Label : String
  Style : ButtonStyle
  CustomID : String
  deriving DecidableEq, Repr

/-- The fields of `discordgo.MessageEmbed` the handlers set. -/
structure MessageEmbed where
  Description : String
  Color : Nat
  deriving DecidableEq, Repr

/-- The fields of `discordgo.MessageSend` the handlers set; `Components` is a list of action
rows, each a list of buttons. -/
structure MessageSend where
  Content : String
  Embeds : List MessageEmbed
  Components : List (List Button)
  deriving DecidableEq, Repr

/-- The fields of `discordgo.WebhookEdit` the handlers set. -/
structure WebhookEdit where
  Content : String
  Embeds : List MessageEmbed
  Components : List (List Button)
  deriving DecidableEq, Repr

/-- One outbound operation of a handler: a method call on the session, or a log line. -/
inductive Call where
  | InteractionRespond (resp : InteractionResponse)
  | ChannelMessageSendComplex (channelID : String) (data : MessageSend)
  | ChannelMessageSend (channelID : String) (content : String)
  | InteractionResponseEdit (edit : WebhookEdit)
  | UserChannelCreate (recipientID : String)
  | Println (msg : String)
  deriving DecidableEq, Repr

/-- What the platform answers to the calls of one handler run: `true` is a nil error;
`UserChannelCreate` answers the identifier of the direct-message channel, or `none` for an
error. -/
structure Session where
  InteractionRespond : InteractionResponse → Bool
  ChannelMessageSendComplex : String → MessageSend → Bool
  ChannelMessageSend : String → String → Bool
  InteractionResponseEdit : WebhookEdit → Bool
  UserChannelCreate : String → Option String

/-! ## `strings.SplitN` with a one-character separator -/

/-- The text before and after the first occurrence of `sep`, or `none` when `sep` does not
occur (`strings.Index` followed by the two slicings of `genSplit`). -/
def cut (sep : Char) : List Char → Option (List Char × List Char)
  | [] => none
  | c :: cs =>
    if c = sep then some ([], cs)
    else match cut sep cs with
      | none => none
      | some (a, b) => some (c :: a, b)

/-- The loop of `strings.genSplit` for a positive count `n`: at most `n - 1` cuts, the rest of
the text is the last element. -/
def splitChars (sep : Char) : Nat → List Char → List (List Char)
  | 0, _ => []
  | 1, s => [s]
  | n + 2, s =>
    match cut sep s with
    | none => [s]
    | some (a, b) => a :: splitChars sep (n + 1) b

/-- The call `strings.SplitN(s, sep, n)` for a one-character separator. -/
def SplitN (s : String) (sep : Char) (n : Nat) : List String :=
  (splitChars sep n s.data).map String.mk

/-! ## `newID` -/

/-- The constant `hextable` of `encoding/hex`, as its list of characters. -/
def hextable : List Char :=
  "0123456789abcdef".data

/-- The two characters `hex.Encode` writes for the byte `v`: `hextable[v>>4]` then
`hextable[v&0x0f]`. -/
def encodeByte (v : Nat) : List Char :=
  [hextable.getD (v % 256 / 16) '0', hextable.getD (v % 16) '0']

/-- The call `hex.EncodeToString(b)` on the bytes `b`. -/
def EncodeToString (b : List Nat) : String :=
  String.mk (b.flatMap encodeByte)

/-- The function `newID` (main.go, lines 199-205).  The argument is what `crand.Read` did with
the 8-byte buffer: `some b` is the buffer it filled, `none` is an error, on which `newID`
panics (result `none`). -/
def newID (rnd : Option (List Nat)) : Option String :=
  match rnd with
  | none => none
  | some b => some (EncodeToString b)

/-! ## `handlePrayer` -/

/-- The ephemeral acknowledgment of `handlePrayer` (main.go, lines 103-109). -/
def prayerAck : InteractionResponse :=
  { RespType := .ChannelMessageWithSource
    Data := some (true, "🙏 Your prayer request has been sent to the moderators for review.") }

/-- The moderation message of `handlePrayer` (main.go, lines 114-138). -/
def modMessage (userName prayerText id : String) : MessageSend :=
  { Content := "New prayer request from **" ++ userName ++ "**:"
    Embeds := [{ Description := prayerText, Color := 0x5865F2 }]
    Components :=
      [[{ Label := "Accept", Style := .SuccessButton, CustomID := "accept:" ++ id },
        { Label := "Reject", Style := .DangerButton, CustomID := "reject:" ++ id }]] }

/-- The function `handlePrayer` (main.go, lines 87-143) on a submission
`(userID, userName, prayerText)`.  The result is the store and the calls made, or `none` when
`newID` panics. -/
def handlePrayer (cfg : Config) (s : Session) (rnd : Option (List Nat)) (store : Store)
    (userID userName prayerText : String) : Option (Store × List Call) :=
  match newID rnd with
  | none => none
  | some id =>
    let store1 := store.insert id { UserID := userID, Username := userName, Text := prayerText }
    if s.InteractionRespond prayerAck then
      let msg := modMessage userName prayerText id
      if s.ChannelMessageSendComplex cfg.modChannelID msg then
        some (store1, [.InteractionRespond prayerAck,
                       .ChannelMessageSendComplex cfg.modChannelID msg])
      else
        some (store1, [.InteractionRespond prayerAck,
                       .ChannelMessageSendComplex cfg.modChannelID msg,
                       .Println "failed to send mod message:"])
    else
      some (store1, [.InteractionRespond prayerAck, .Println "respond(/prayer) failed:"])

/-! ## `handleButton` -/

/-- The deferred acknowledgment of `handleButton` (main.go, lines 157-159). -/
def buttonAck : InteractionResponse :=
  { RespType := .DeferredMessageUpdate, Data := none }

/-- The edit of the moderation message after an accept (main.go, lines 171-175). -/
def approvedEdit : WebhookEdit :=
  { Content := "✅ Prayer request approved and posted.", Embeds := [], Components := [] }

/-- The edit of the moderation message after a reject (main.go, lines 181-185). -/
def rejectedEdit : WebhookEdit :=
  { Content := "❌ Prayer request rejected.", Embeds := [], Components := [] }

/-- The content of the public post (main.go, line 167). -/
def publicContent (text : String) : String :=
  "🙏 **Prayer Request:**\n" ++ text

/-- The content of the rejection notice (main.go, line 192). -/
def rejectionNotice : String :=
  "⚠️ Your prayer request was not approved by the moderators."

/-- The `accept` case of the switch (main.go, lines 165-178). -/
def acceptCalls (cfg : Config) (s : Session) (req : PrayerRequest) : List Call :=
  ([.ChannelMessageSend cfg.publicChannelID (publicContent req.Text)] ++
    (if s.ChannelMessageSend cfg.publicChannelID (publicContent req.Text) then []
     else [.Println "failed to post public prayer:"])) ++
  ([.InteractionResponseEdit approvedEdit] ++
    (if s.InteractionResponseEdit approvedEdit then []
     else [.Println "edit after accept failed:"]))

/-- The `reject` case of the switch (main.go, lines 180-194). -/
def rejectCalls (s : Session) (req : PrayerRequest) : List Call :=
  ([.InteractionResponseEdit rejectedEdit] ++
    (if s.InteractionResponseEdit rejectedEdit then []
     else [.Println "edit after reject failed:"])) ++
  (if req.UserID ≠ "" then
    match s.UserChannelCreate req.UserID with
    | some ch => [.UserChannelCreate req.UserID, .ChannelMessageSend ch rejectionNotice]
    | none => [.UserChannelCreate req.UserID]
   else [])

/-- The switch on `action` (main.go, lines 164-195); it has no default case. -/
def switchCalls (cfg : Config) (s : Session) (action : String) (req : PrayerRequest) :
    List Call :=
  if action = "accept" then acceptCalls cfg s req
  else if action = "reject" then rejectCalls s req
  else []

/-- The function `handleButton` (main.go, lines 145-197) on a component event whose `CustomID`
is `customID`.  The result is the store and the calls made. -/
def handleButton (cfg : Config) (s : Session) (store : Store) (customID : String) :
    Store × List Call :=
  match SplitN customID ':' 2 with
  | [action, id] =>
    match store.lookup id with
    | none => (store, [])
    | some req =>
      if s.InteractionRespond buttonAck then
        (store.erase id, .InteractionRespond buttonAck :: switchCalls cfg s action req)
      else
        (store, [.InteractionRespond buttonAck, .Println "button defer failed:"])
  | _ => (store, [])

/-! ## Observations on the calls of a run -/

/-- The messages among `calls` that are sent to the channel `channelID`, by
`ChannelMessageSend` or by `ChannelMessageSendComplex`. -/
def messagesTo (channelID : String) (calls : List Call) : List Call :=
  calls.filter fun c =>
    match c with
    | .ChannelMessageSend ch _ => ch = channelID
    | .ChannelMessageSendComplex ch _ => ch = channelID
    | _ => false

/-- The calls on the session among `calls`, in order: everything but the log lines. -/
def sessionCalls (calls : List Call) : List Call :=
  calls.filter fun c =>
    match c with
    | .Println _ => false
    | _ => true

/-! ## Two runs of `handleButton` at once

`discordgo` calls the handler of each event in a goroutine of its own, and `main.go` guards
`prayerRequests` with no lock.  A run of `handleButton` reads the map once (line 151) and
deletes from it once (line 196); the calls in between touch neither the map nor the other run.

The Go runtime marks a map as being written for the duration of a write (its flag
`hashWriting`).  A read or a write that finds the mark aborts the whole process
(`fatal error: concurrent map read and map write`, `fatal error: concurrent map writes`); an
access to an empty map returns before it looks at the mark.  A delete is therefore two steps,
its beginning, which sets the mark, and its end, which removes the key and clears the mark. -/

/-- Where a run of `handleButton` stands: before the lookup of line 151, holding the record it
found, past the switch and before the delete of line 196, inside that delete, or returned. -/
inductive Goroutine where
  | start (customID : String)
  | found (action : String) (id : String) (req : PrayerRequest)
  | acted (id : String)
  | deleting (id : String)
  | returned
  deriving DecidableEq, Repr

/-- What one step of a run leaves: the map, its write mark, whether the process aborted, the
calls of the step and where the run stands then. -/
structure Step where
  store : Store
  writing : Bool
  crashed : Bool
  calls : List Call
  next : Goroutine

/-- One step of a run: lines 146-154 (split and lookup), lines 157-195 (acknowledgment and
switch), the beginning of the delete of line 196, or its end. -/
def Goroutine.step (cfg : Config) (s : Session) (store : Store) (writing : Bool) :
    Goroutine → Step
  | .start customID =>
    match SplitN customID ':' 2 with
    | [action, id] =>
      if store.keys = [] then
        { store := store, writing := writing, crashed := false, calls := [], next := .returned }
      else if writing then
        { store := store, writing := writing, crashed := true, calls := [],
          next := .start customID }
      else
        match store.lookup id with
        | none =>
          { store := store, writing := writing, crashed := false, calls := [],
            next := .returned }
        | some req =>
          { store := store, writing := writing, crashed := false, calls := [],
            next := .found action id req }
    | _ =>
      { store := store, writing := writing, crashed := false, calls := [], next := .returned }
  | .found action id req =>
    if s.InteractionRespond buttonAck then
      { store := store, writing := writing, crashed := false,
        calls := .InteractionRespond buttonAck :: switchCalls cfg s action req,
        next := .acted id }
    else
      { store := store, writing := writing, crashed := false,
        calls := [.InteractionRespond buttonAck, .Println "button defer failed:"],
        next := .returned }
  | .acted id =>
    if store.keys = [] then
      { store := store, writing := writing, crashed := false, calls := [], next := .returned }
    else if writing then
      { store := store, writing := writing, crashed := true, calls := [], next := .acted id }
    else
      { store := store, writing := true, crashed := false, calls := [], next := .deleting id }
  | .deleting id =>
    { store := store.erase id, writing := false, crashed := false, calls := [],
      next := .returned }
  | .returned =>
    { store := store, writing := writing, crashed := false, calls := [], next := .returned }

/-- The shared map with its write mark, whether the process has aborted, the calls made so
far in the order they were made, and the two runs. -/
structure World where
  store : Store
  writing : Bool
  crashed : Bool
  calls : List Call
  first : Goroutine
  second : Goroutine

/-- Which of the two runs takes the next step. -/
inductive Turn where
  | first
  | second
  deriving DecidableEq, Repr

/-- The run named by the turn takes one step, unless the process has aborted; the platform
answers are `s₁` for the first run and `s₂` for the second. -/
def World.step (cfg : Config) (s₁ s₂ : Session) (w : World) (t : Turn) : World :=
  if w.crashed then w
  else
    match t with
    | .first =>
      let r := Goroutine.step cfg s₁ w.store w.writing w.first
      { store := r.store, writing := r.writing, crashed := r.crashed,
        calls := w.calls ++ r.calls, first := r.next, second := w.second }
    | .second =>
      let r := Goroutine.step cfg s₂ w.store w.writing w.second
      { store := r.store, writing := r.writing, crashed := r.crashed,
        calls := w.calls ++ r.calls, first := w.first, second := r.next }

/-- The world after the steps of a schedule, taken from left to right. -/
def World.run (cfg : Config) (s₁ s₂ : Session) (w : World) (schedule : List Turn) : World :=
  schedule.foldl (World.step cfg s₁ s₂) w

/-- Two decision events with the tags `tag₁` and `tag₂` arriving on the store `store`. -/
def World.init (store : Store) (tag₁ tag₂ : String) : World :=
  { store := store, writing := false, crashed := false, calls := [],
    first := .start tag₁, second := .start tag₂ }

/-- Both runs have returned. -/
def World.done (w : World) : Prop :=
  w.first = .returned ∧ w.second = .returned

instance (w : World) : Decidable w.done :=
  inferInstanceAs (Decidable (_ ∧ _))

/-! ## Concrete values used in the examples -/

/-- A platform on which every call succeeds; a direct-message channel is named after its
recipient. -/
def okSession : Session :=
  { InteractionRespond := fun _ => true
    ChannelMessageSendComplex := fun _ _ => true
    ChannelMessageSend := fun _ _ => true
    InteractionResponseEdit := fun _ => true
    UserChannelCreate := fun u => some ("dm-" ++ u) }

/-- A platform on which the interaction acknowledgment fails and every other call succeeds. -/
def noAckSession : Session :=
  { okSession with InteractionRespond := fun _ => false }

/-- A configuration with two different channels. -/
def cfg0 : Config :=
  { modChannelID := "mods", publicChannelID := "public" }

/-- A pending request of user `u1`, named Alice. -/
def alice : PrayerRequest :=
  { UserID := "u1", Username := "Alice", Text := "help me" }

/-- A pending request whose `UserID` is the empty string. -/
def nobody : PrayerRequest :=
  { UserID := "", Username := "Alice", Text := "help me" }

/-- The store holding `alice` under the identifier `000123456789abff`. -/
def store0 : Store :=
  AList.insert "000123456789abff" alice ∅

/-- A pending request with the text of `alice`, of another user. -/
def bob : PrayerRequest :=
  { UserID := "u2", Username := "Bob", Text := "help me" }

/-- The store holding `bob` under the identifier `0badc0de0badc0de`. -/
def store2 : Store :=
  AList.insert "0badc0de0badc0de" bob ∅

/-- A platform on which the acknowledgments succeed, the edits and the sends fail and no
direct-message channel can be opened. -/
def flakySession : Session :=
  { InteractionRespond := fun _ => true
    ChannelMessageSendComplex := fun _ _ => false
    ChannelMessageSend := fun _ _ => false
    InteractionResponseEdit := fun _ => false
    UserChannelCreate := fun _ => none }

/-- An accept and a reject event for the request of `alice` handled at once, both lookups
coming before both deletes, and the deletes one after the other. -/
def racedWorld : World :=
  World.run cfg0 okSession okSession
    (World.init store0 "accept:000123456789abff" "reject:000123456789abff")
    [.first, .second, .first, .second, .first, .first, .second, .second]

/-- The same two events, the lookup of the second run falling inside the delete of the
first. -/
def overlappedWorld : World :=
  World.run cfg0 okSession okSession
    (World.init store0 "accept:000123456789abff" "reject:000123456789abff")
    [.first, .first, .first, .second]

/-- The store holding `nobody` under the identifier `000123456789abff`. -/
def store1 : Store :=
  AList.insert "000123456789abff" nobody ∅

/-! ## Identifiers -/

theorem hextable_getD_inj : ∀ i < 16, ∀ j < 16,
    hextable.getD i '0' = hextable.getD j '0' → i = j := by
  decide

theorem hextable_getD_mem : ∀ i < 16, hextable.getD i '0' ∈ hextable := by
  decide

theorem encodeByte_inj {v w : Nat} (hv : v < 256) (hw : w < 256)
    (h : encodeByte v = encodeByte w) : v = w := by
  simp only [encodeByte, List.cons.injEq, and_true] at h
  have h1 := hextable_getD_inj _ (by omega) _ (by omega) h.1
  have h2 := hextable_getD_inj _ (by omega) _ (by omega) h.2
  omega

theorem encodeByte_length (v : Nat) : (encodeByte v).length = 2 := rfl

theorem encodeByte_mem (v : Nat) : ∀ c ∈ encodeByte v, c ∈ hextable := by
  intro c hc
  simp only [encodeByte, List.mem_cons, List.mem_singleton, List.not_mem_nil, or_false] at hc
  rcases hc with rfl | rfl
  · exact hextable_getD_mem _ (by omega)
  · exact hextable_getD_mem _ (by omega)

theorem flatMap_encodeByte_length (b : List Nat) : (b.flatMap encodeByte).length = 2 * b.length := by
  induction b with
  | nil => rfl
  | cons v vs ih =>
    simp only [List.flatMap_cons, List.length_append, encodeByte_length, ih, List.length_cons]
    omega

theorem flatMap_encodeByte_inj : ∀ (b b' : List Nat), (∀ v ∈ b, v < 256) → (∀ v ∈ b', v < 256) →
    b.length = b'.length → b.flatMap encodeByte = b'.flatMap encodeByte → b = b'
  | [], [], _, _, _, _ => rfl
  | [], _ :: _, _, _, hl, _ => by simp at hl
  | _ :: _, [], _, _, hl, _ => by simp at hl
  | v :: vs, w :: ws, hb, hb', hl, h => by
    simp only [List.flatMap_cons] at h
    have hlen : (encodeByte v).length = (encodeByte w).length := rfl
    obtain ⟨h1, h2⟩ := List.append_inj h hlen
    have hvw := encodeByte_inj (hb v (List.mem_cons_self _ _)) (hb' w (List.mem_cons_self _ _)) h1
    have ih := flatMap_encodeByte_inj vs ws
      (fun x hx => hb x (List.mem_cons_of_mem _ hx))
      (fun x hx => hb' x (List.mem_cons_of_mem _ hx))
      (by simpa using hl) h2
    rw [hvw, ih]

/-- C10: for every 8-byte sequence `b` delivered by the random source, `newID` returns a
string of exactly 16 characters, each one of `0`-`9` or `a`-`f` (so never the separator `:`),
and a different 8-byte sequence always gives a different identifier. -/
theorem newID_injective_hex (b : List Nat) (hlen : b.length = 8) (hb : ∀ v ∈ b, v < 256) :
    ∃ id, newID (some b) = some id ∧ id.length = 16 ∧
      (∀ c ∈ id.data, c ∈ "0123456789abcdef".data) ∧
      ':' ∉ id.data ∧
      ∀ b' : List Nat, b'.length = 8 → (∀ v ∈ b', v < 256) → b' ≠ b →
        newID (some b') ≠ some id := by
  have hmem : ∀ c ∈ (EncodeToString b).data, c ∈ hextable := by
    intro c hc
    simp only [EncodeToString, List.mem_flatMap] at hc
    obtain ⟨v, _, hcv⟩ := hc
    exact encodeByte_mem v c hcv
  refine ⟨EncodeToString b, rfl, ?_, hmem, ?_, ?_⟩
  · show (b.flatMap encodeByte).length = 16
    rw [flatMap_encodeByte_length, hlen]
  · intro hc
    exact absurd (hmem _ hc) (by decide)
  · intro b' hlen' hb' hne h
    simp only [newID, Option.some.injEq, EncodeToString] at h
    exact hne (flatMap_encodeByte_inj b' b hb' hb (by omega) (congrArg String.data h))

theorem newID_injective_hex_witness :
    ∃ id, newID (some [0, 1, 35, 69, 103, 137, 171, 255]) = some id ∧ id.length = 16 ∧
      (∀ c ∈ id.data, c ∈ "0123456789abcdef".data) ∧
      ':' ∉ id.data ∧
      ∀ b' : List Nat, b'.length = 8 → (∀ v ∈ b', v < 256) →
        b' ≠ [0, 1, 35, 69, 103, 137, 171, 255] → newID (some b') ≠ some id :=
  newID_injective_hex [0, 1, 35, 69, 103, 137, 171, 255] (by decide) (by decide)

/-! ## Decision tags -/

theorem cut_append_of_not_mem (sep : Char) : ∀ (a b : List Char), sep ∉ a →
    cut sep (a ++ sep :: b) = some (a, b)
  | [], b, _ => by simp [cut]
  | c :: cs, b, h => by
    have hc : c ≠ sep := fun e => h (by simp [e])
    have ih := cut_append_of_not_mem sep cs b (fun m => h (List.mem_cons_of_mem _ m))
    simp [cut, hc, ih]

theorem SplitN_tag (action id : String) (h : ':' ∉ action.data) :
    SplitN (action ++ ":" ++ id) ':' 2 = [action, id] := by
  have e : (action ++ ":" ++ id).data = action.data ++ ':' :: id.data := by
    simp [String.data_append]
  simp [SplitN, e, splitChars, cut_append_of_not_mem _ _ _ h]

theorem SplitN_accept (id : String) : SplitN ("accept:" ++ id) ':' 2 = ["accept", id] := by
  have := SplitN_tag "accept" id (by decide)
  simpa using this

theorem SplitN_reject (id : String) : SplitN ("reject:" ++ id) ':' 2 = ["reject", id] := by
  have := SplitN_tag "reject" id (by decide)
  simpa using this

/-! ## `handleButton`, one event -/

theorem handleButton_found (cfg : Config) (s : Session) (store : Store)
    (customID action id : String) (req : PrayerRequest)
    (hsplit : SplitN customID ':' 2 = [action, id]) (hreq : store.lookup id = some req)
    (hack : s.InteractionRespond buttonAck = true) :
    handleButton cfg s store customID =
      (store.erase id, .InteractionRespond buttonAck :: switchCalls cfg s action req) := by
  simp [handleButton, hsplit, hreq, hack]

theorem handleButton_absent (cfg : Config) (s : Session) (store : Store)
    (customID action id : String)
    (hsplit : SplitN customID ':' 2 = [action, id]) (hreq : store.lookup id = none) :
    handleButton cfg s store customID = (store, []) := by
  simp [handleButton, hsplit, hreq]

theorem messagesTo_public_accept (cfg : Config) (s : Session) (req : PrayerRequest) :
    messagesTo cfg.publicChannelID
        (.InteractionRespond buttonAck :: switchCalls cfg s "accept" req) =
      [.ChannelMessageSend cfg.publicChannelID ("🙏 **Prayer Request:**\n" ++ req.Text)] := by
  cases h1 : s.ChannelMessageSend cfg.publicChannelID (publicContent req.Text) <;>
    cases h2 : s.InteractionResponseEdit approvedEdit <;>
    simp [switchCalls, acceptCalls, messagesTo, h1, h2, publicContent]

/-- C1: when the store holds `req` under `id` and the acknowledgment succeeds, `handleButton`
on the tag `"accept:" ++ id` sends exactly one message to the public channel, whose content is
the fixed heading followed by `req.Text` unmodified, and afterwards the store has no entry for
`id`. -/
theorem accept_publishes_text_and_removes (cfg : Config) (s : Session) (store : Store)
    (id : String) (req : PrayerRequest) (hreq : store.lookup id = some req)
    (hack : s.InteractionRespond buttonAck = true) :
    messagesTo cfg.publicChannelID (handleButton cfg s store ("accept:" ++ id)).2 =
        [.ChannelMessageSend cfg.publicChannelID ("🙏 **Prayer Request:**\n" ++ req.Text)] ∧
      (handleButton cfg s store ("accept:" ++ id)).1.lookup id = none := by
  rw [handleButton_found cfg s store _ _ _ req (SplitN_accept id) hreq hack]
  exact ⟨messagesTo_public_accept cfg s req, AList.lookup_erase id store⟩

theorem accept_publishes_text_and_removes_witness :
    messagesTo cfg0.publicChannelID
        (handleButton cfg0 okSession store0 ("accept:" ++ "000123456789abff")).2 =
        [.ChannelMessageSend cfg0.publicChannelID ("🙏 **Prayer Request:**\n" ++ alice.Text)] ∧
      (handleButton cfg0 okSession store0 ("accept:" ++ "000123456789abff")).1.lookup
        "000123456789abff" = none :=
  accept_publishes_text_and_removes cfg0 okSession store0 "000123456789abff" alice
    (by decide) (by decide)

/-- C2, as stated, fails: the store holds a record with an empty `UserID` under the
identifier, the acknowledgment succeeds, and the calls of `handleButton` on the reject tag are
the acknowledgment and the edit of the moderation message only: no direct-message channel is
opened and no notice is sent, so there is no direct notification at all, not exactly one. -/
theorem reject_empty_UserID_no_attempt :
    store1.lookup "000123456789abff" = some nobody ∧ nobody.UserID = "" ∧
      okSession.InteractionRespond buttonAck = true ∧
      sessionCalls (handleButton cfg0 okSession store1 "reject:000123456789abff").2 =
        [.InteractionRespond { RespType := .DeferredMessageUpdate, Data := none },
          .InteractionResponseEdit
            { Content := "❌ Prayer request rejected.", Embeds := [], Components := [] }] := by
  decide

/-- C2, amended: when the store holds `req` under `id`, the acknowledgment succeeds and the
direct-message channel the platform opens is not the public channel, `handleButton` on the tag
`"reject:" ++ id` sends no message to the public channel and afterwards the store has no entry
for `id`; its calls on the session are the acknowledgment, the edit of the moderation message
and, when `req.UserID` is not the empty string, exactly one direct notification addressed to
`req.UserID`: one `UserChannelCreate` for `req.UserID` followed, when the channel opens, by
one rejection notice sent to that channel.  When `req.UserID` is empty there is none. -/
theorem reject_notifies_nonempty_UserID_and_removes (cfg : Config) (s : Session)
    (store : Store) (id : String) (req : PrayerRequest) (hreq : store.lookup id = some req)
    (hack : s.InteractionRespond buttonAck = true)
    (hdm : ∀ ch, s.UserChannelCreate req.UserID = some ch → ch ≠ cfg.publicChannelID) :
    messagesTo cfg.publicChannelID (handleButton cfg s store ("reject:" ++ id)).2 = [] ∧
      sessionCalls (handleButton cfg s store ("reject:" ++ id)).2 =
        .InteractionRespond { RespType := .DeferredMessageUpdate, Data := none } ::
          .InteractionResponseEdit
            { Content := "❌ Prayer request rejected.", Embeds := [], Components := [] } ::
          (if req.UserID = "" then []
           else .UserChannelCreate req.UserID ::
            (s.UserChannelCreate req.UserID).toList.map fun ch =>
              Call.ChannelMessageSend ch
                "⚠️ Your prayer request was not approved by the moderators.") ∧
      (handleButton cfg s store ("reject:" ++ id)).1.lookup id = none := by
  rw [handleButton_found cfg s store _ _ _ req (SplitN_reject id) hreq hack]
  have hne : ¬ ("reject" = "accept") := by decide
  refine ⟨?_, ?_, AList.lookup_erase id store⟩
  · by_cases hu : req.UserID = ""
    · cases h2 : s.InteractionResponseEdit rejectedEdit <;>
        simp [switchCalls, rejectCalls, messagesTo, h2, hu, hne]
    · cases h3 : s.UserChannelCreate req.UserID with
      | none =>
        cases h2 : s.InteractionResponseEdit rejectedEdit <;>
          simp [switchCalls, rejectCalls, messagesTo, h2, h3, hu, hne]
      | some ch =>
        have hc := hdm ch h3
        cases h2 : s.InteractionResponseEdit rejectedEdit <;>
          simp [switchCalls, rejectCalls, messagesTo, h2, h3, hu, hne, hc]
  · by_cases hu : req.UserID = ""
    · cases h2 : s.InteractionResponseEdit rejectedEdit <;>
        simp only [rejectedEdit] at h2 <;>
        simp [switchCalls, rejectCalls, sessionCalls, h2, hu, hne, buttonAck, rejectedEdit]
    · cases h3 : s.UserChannelCreate req.UserID <;>
        cases h2 : s.InteractionResponseEdit rejectedEdit <;>
        simp only [rejectedEdit] at h2 <;>
        simp [switchCalls, rejectCalls, sessionCalls, h2, h3, hu, hne, buttonAck,
          rejectedEdit, rejectionNotice]

theorem reject_notifies_nonempty_UserID_and_removes_witness :
    messagesTo cfg0.publicChannelID
        (handleButton cfg0 okSession store0 ("reject:" ++ "000123456789abff")).2 = [] ∧
      sessionCalls (handleButton cfg0 okSession store0 ("reject:" ++ "000123456789abff")).2 =
        .InteractionRespond { RespType := .DeferredMessageUpdate, Data := none } ::
          .InteractionResponseEdit
            { Content := "❌ Prayer request rejected.", Embeds := [], Components := [] } ::
          (if alice.UserID = "" then []
           else .UserChannelCreate alice.UserID ::
            (okSession.UserChannelCreate alice.UserID).toList.map fun ch =>
              Call.ChannelMessageSend ch
                "⚠️ Your prayer request was not approved by the moderators.") ∧
      (handleButton cfg0 okSession store0 ("reject:" ++ "000123456789abff")).1.lookup
        "000123456789abff" = none :=
  reject_notifies_nonempty_UserID_and_removes cfg0 okSession store0 "000123456789abff" alice
    (by decide) (by decide) (by decide)

/-- C3: when the tag has no identifier part that is a key of the store (it has no separator,
or the text after its first separator is not a key), `handleButton` makes no call at all, so
sends no channel message and no direct message, and returns the store it was given. -/
theorem unknown_id_no_call_no_change (cfg : Config) (s : Session) (store : Store)
    (customID : String)
    (hid : ∀ action id, SplitN customID ':' 2 = [action, id] → store.lookup id = none) :
    handleButton cfg s store customID = (store, []) := by
  unfold handleButton
  split
  · next action id hsplit => simp [hid action id hsplit]
  · rfl

theorem unknown_id_no_call_no_change_witness :
    handleButton cfg0 okSession store0 "accept:ffffffffffffffff" = (store0, []) :=
  unknown_id_no_call_no_change cfg0 okSession store0 "accept:ffffffffffffffff" (by
    intro action id h
    have h2 : SplitN "accept:ffffffffffffffff" ':' 2 = ["accept", "ffffffffffffffff"] := by
      decide
    rw [h2] at h
    simp only [List.cons.injEq, and_true] at h
    rw [← h.2]
    decide)

/-- C4: when the store holds `req` under `id`, two decision events for `id` with actions
accept or reject handled one after the other (the acknowledgment of the first succeeding, the
platform answering the second in any way) apply the terminal action once.  The first run finds
the record and executes its action: after the acknowledgment, for an accept the post of
`req.Text` to the public channel and the edit of the moderation message to approved, for a
reject the edit to rejected and the direct notification of `req.UserID` (the channel opened and,
when it opens, the notice sent; none when `req.UserID` is empty); then it removes the record.
The second run makes no call at all (no public post, no direct message, no moderation edit) and
returns the store unchanged. -/
theorem second_decision_is_noop (cfg : Config) (s₁ s₂ : Session) (store : Store)
    (id a₁ a₂ : String) (req : PrayerRequest) (hreq : store.lookup id = some req)
    (h₁ : a₁ = "accept" ∨ a₁ = "reject") (h₂ : a₂ = "accept" ∨ a₂ = "reject")
    (hack : s₁.InteractionRespond buttonAck = true) :
    sessionCalls (handleButton cfg s₁ store (a₁ ++ ":" ++ id)).2 =
        .InteractionRespond { RespType := .DeferredMessageUpdate, Data := none } ::
          (if a₁ = "accept" then
            [.ChannelMessageSend cfg.publicChannelID
                ("🙏 **Prayer Request:**\n" ++ req.Text),
              .InteractionResponseEdit
                { Content := "✅ Prayer request approved and posted.", Embeds := [], Components := [] }]
           else
            .InteractionResponseEdit
                { Content := "❌ Prayer request rejected.", Embeds := [], Components := [] } ::
              (if req.UserID = "" then []
               else .UserChannelCreate req.UserID ::
                (s₁.UserChannelCreate req.UserID).toList.map fun ch =>
                  Call.ChannelMessageSend ch
                    "⚠️ Your prayer request was not approved by the moderators.")) ∧
      (handleButton cfg s₁ store (a₁ ++ ":" ++ id)).1.lookup id = none ∧
      handleButton cfg s₂ (handleButton cfg s₁ store (a₁ ++ ":" ++ id)).1 (a₂ ++ ":" ++ id) =
        ((handleButton cfg s₁ store (a₁ ++ ":" ++ id)).1, []) := by
  have c₁ : ':' ∉ a₁.data := by rcases h₁ with rfl | rfl <;> decide
  have c₂ : ':' ∉ a₂.data := by rcases h₂ with rfl | rfl <;> decide
  rw [handleButton_found cfg s₁ store _ _ _ req (SplitN_tag a₁ id c₁) hreq hack]
  refine ⟨?_, AList.lookup_erase id store, ?_⟩
  · rcases h₁ with rfl | rfl
    · cases h1 : s₁.ChannelMessageSend cfg.publicChannelID (publicContent req.Text) <;>
        cases h2 : s₁.InteractionResponseEdit approvedEdit <;>
        simp only [publicContent, approvedEdit] at h1 h2 <;>
        simp [switchCalls, acceptCalls, sessionCalls, h1, h2, publicContent, buttonAck,
          approvedEdit]
    · have hne : ¬ ("reject" = "accept") := by decide
      by_cases hu : req.UserID = ""
      · cases h2 : s₁.InteractionResponseEdit rejectedEdit <;>
          simp only [rejectedEdit] at h2 <;>
          simp [switchCalls, rejectCalls, sessionCalls, h2, hu, hne, buttonAck, rejectedEdit]
      · cases h3 : s₁.UserChannelCreate req.UserID <;>
          cases h2 : s₁.InteractionResponseEdit rejectedEdit <;>
          simp only [rejectedEdit] at h2 <;>
          simp [switchCalls, rejectCalls, sessionCalls, h2, h3, hu, hne, buttonAck,
            rejectedEdit, rejectionNotice]
  · exact handleButton_absent cfg s₂ _ _ _ _ (SplitN_tag a₂ id c₂) (AList.lookup_erase id store)

theorem second_decision_is_noop_witness :
    sessionCalls (handleButton cfg0 okSession store0 ("accept" ++ ":" ++ "000123456789abff")).2 =
        .InteractionRespond { RespType := .DeferredMessageUpdate, Data := none } ::
          (if "accept" = "accept" then
            [.ChannelMessageSend cfg0.publicChannelID
                ("🙏 **Prayer Request:**\n" ++ alice.Text),
              .InteractionResponseEdit
                { Content := "✅ Prayer request approved and posted.", Embeds := [], Components := [] }]
           else
            .InteractionResponseEdit
                { Content := "❌ Prayer request rejected.", Embeds := [], Components := [] } ::
              (if alice.UserID = "" then []
               else .UserChannelCreate alice.UserID ::
                (okSession.UserChannelCreate alice.UserID).toList.map fun ch =>
                  Call.ChannelMessageSend ch
                    "⚠️ Your prayer request was not approved by the moderators.")) ∧
      (handleButton cfg0 okSession store0 ("accept" ++ ":" ++ "000123456789abff")).1.lookup
        "000123456789abff" = none ∧
      handleButton cfg0 okSession
          (handleButton cfg0 okSession store0 ("accept" ++ ":" ++ "000123456789abff")).1
          ("reject" ++ ":" ++ "000123456789abff") =
        ((handleButton cfg0 okSession store0 ("accept" ++ ":" ++ "000123456789abff")).1, []) :=
  second_decision_is_noop cfg0 okSession okSession store0 "000123456789abff" "accept" "reject"
    alice (by decide) (by decide) (by decide) (by decide)

/-- C5: the public post is anonymous.  When two stores hold, under any identifiers, records
with the same `Text` (their `UserID` and `Username` being any strings) and the acknowledgments
succeed, accepting them makes `handleButton` send the same messages to the public channel,
whatever the platform answers to the other calls. -/
theorem public_post_depends_on_text_only (cfg : Config) (s₁ s₂ : Session)
    (store₁ store₂ : Store) (id₁ id₂ : String) (req₁ req₂ : PrayerRequest)
    (hreq₁ : store₁.lookup id₁ = some req₁) (hreq₂ : store₂.lookup id₂ = some req₂)
    (hack₁ : s₁.InteractionRespond buttonAck = true)
    (hack₂ : s₂.InteractionRespond buttonAck = true)
    (htext : req₁.Text = req₂.Text) :
    messagesTo cfg.publicChannelID (handleButton cfg s₁ store₁ ("accept:" ++ id₁)).2 =
      messagesTo cfg.publicChannelID (handleButton cfg s₂ store₂ ("accept:" ++ id₂)).2 := by
  rw [handleButton_found cfg s₁ store₁ _ _ _ req₁ (SplitN_accept id₁) hreq₁ hack₁,
    handleButton_found cfg s₂ store₂ _ _ _ req₂ (SplitN_accept id₂) hreq₂ hack₂,
    messagesTo_public_accept, messagesTo_public_accept, htext]

theorem public_post_depends_on_text_only_witness :
    messagesTo cfg0.publicChannelID
        (handleButton cfg0 okSession store0 ("accept:" ++ "000123456789abff")).2 =
      messagesTo cfg0.publicChannelID
        (handleButton cfg0 flakySession store2 ("accept:" ++ "0badc0de0badc0de")).2 :=
  public_post_depends_on_text_only cfg0 okSession flakySession store0 store2
    "000123456789abff" "0badc0de0badc0de" alice bob
    (by decide) (by decide) (by decide) (by decide) (by decide)

/-- C8, as stated, fails: the store holds `alice` under the identifier, the tag carries that
identifier with the action `later`, which is neither `accept` nor `reject`, and the
acknowledgment succeeds.  `handleButton` acknowledges the event, makes no other call, and
removes the record: the delete after the switch runs for every action. -/
theorem other_action_removes_record :
    store0.lookup "000123456789abff" = some alice ∧
      (handleButton cfg0 okSession store0 "later:000123456789abff").2 =
        [.InteractionRespond buttonAck] ∧
      (handleButton cfg0 okSession store0 "later:000123456789abff").1.lookup
        "000123456789abff" = none := by
  decide

/-- C8, amended: when the store holds `req` under `id` and the action of the tag
`action ++ ":" ++ id` has no separator in it and is neither `accept` nor `reject`, the only
call `handleButton` makes on the session is the acknowledgment (no public post, no direct
message, no moderation edit), every other entry of the store is unchanged, and the record for
`id` is removed when the acknowledgment succeeds and kept when it fails. -/
theorem other_action_only_acks_and_resolves (cfg : Config) (s : Session) (store : Store)
    (id action : String) (req : PrayerRequest) (hreq : store.lookup id = some req)
    (hsep : ':' ∉ action.data) (hacc : action ≠ "accept") (hrej : action ≠ "reject") :
    sessionCalls (handleButton cfg s store (action ++ ":" ++ id)).2 =
        [.InteractionRespond { RespType := .DeferredMessageUpdate, Data := none }] ∧
      (handleButton cfg s store (action ++ ":" ++ id)).1.lookup id =
        (if s.InteractionRespond buttonAck then none else some req) ∧
      ∀ k, k ≠ id →
        (handleButton cfg s store (action ++ ":" ++ id)).1.lookup k = store.lookup k := by
  cases hack : s.InteractionRespond buttonAck
  · have e : handleButton cfg s store (action ++ ":" ++ id) =
        (store, [.InteractionRespond buttonAck, .Println "button defer failed:"]) := by
      simp [handleButton, SplitN_tag action id hsep, hreq, hack]
    rw [e]
    exact ⟨by simp [sessionCalls, buttonAck], by simpa using hreq, fun _ _ => rfl⟩
  · rw [handleButton_found cfg s store _ _ _ req (SplitN_tag action id hsep) hreq hack]
    exact ⟨by simp [sessionCalls, switchCalls, hacc, hrej, buttonAck],
      by simp, fun k hk => AList.lookup_erase_ne hk⟩

theorem other_action_only_acks_and_resolves_witness :
    sessionCalls (handleButton cfg0 noAckSession store0
        ("later" ++ ":" ++ "000123456789abff")).2 =
        [.InteractionRespond { RespType := .DeferredMessageUpdate, Data := none }] ∧
      (handleButton cfg0 noAckSession store0
        ("later" ++ ":" ++ "000123456789abff")).1.lookup "000123456789abff" =
        (if noAckSession.InteractionRespond buttonAck then none else some alice) ∧
      ∀ k, k ≠ "000123456789abff" →
        (handleButton cfg0 noAckSession store0
          ("later" ++ ":" ++ "000123456789abff")).1.lookup k = store0.lookup k :=
  other_action_only_acks_and_resolves cfg0 noAckSession store0 "000123456789abff" "later"
    alice (by decide) (by decide) (by decide) (by decide)

/-! ## `handlePrayer` -/

theorem lookup_insert_of_ne (store : Store) (id k : String) (r : PrayerRequest) (h : k ≠ id) :
    (store.insert id r).lookup k = store.lookup k :=
  AList.lookup_insert_ne h

theorem keys_length_insert_fresh (store : Store) (id : String) (r : PrayerRequest)
    (h : store.lookup id = none) : (store.insert id r).keys.length = store.keys.length + 1 := by
  have hk : id ∉ store.keys := AList.mem_keys.not.mp (AList.lookup_eq_none.mp h)
  rw [AList.keys_insert, List.erase_of_not_mem hk, List.length_cons]

theorem handlePrayer_acked (cfg : Config) (s : Session) (rnd : Option (List Nat))
    (store : Store) (userID userName text id : String)
    (hid : newID rnd = some id) (hack : s.InteractionRespond prayerAck = true) :
    handlePrayer cfg s rnd store userID userName text =
      some (store.insert id { UserID := userID, Username := userName, Text := text },
        .InteractionRespond prayerAck ::
          .ChannelMessageSendComplex cfg.modChannelID (modMessage userName text id) ::
          (if s.ChannelMessageSendComplex cfg.modChannelID (modMessage userName text id) then []
           else [.Println "failed to send mod message:"])) := by
  simp only [handlePrayer, hid, hack, if_true]
  cases s.ChannelMessageSendComplex cfg.modChannelID (modMessage userName text id) <;> rfl

theorem handlePrayer_not_acked (cfg : Config) (s : Session) (rnd : Option (List Nat))
    (store : Store) (userID userName text id : String)
    (hid : newID rnd = some id) (hack : s.InteractionRespond prayerAck = false) :
    handlePrayer cfg s rnd store userID userName text =
      some (store.insert id { UserID := userID, Username := userName, Text := text },
        [.InteractionRespond prayerAck, .Println "respond(/prayer) failed:"]) := by
  simp [handlePrayer, hid, hack]

/-- C6: for a submission `(userID, userName, text)` and a generated identifier `id` that is not
pending, when the acknowledgment succeeds and the moderation channel is not the public channel,
`handlePrayer` returns, the store then has exactly one record more, `id` mapped to
`(userID, userName, text)` with every other entry unchanged, one message is sent to the
moderation channel, its content contains `userName`, its one embed has `text` as description
and its two controls are tagged `"accept:" ++ id` and `"reject:" ++ id`, and nothing is sent to
the public channel. -/
theorem submission_stored_and_forwarded (cfg : Config) (s : Session) (rnd : Option (List Nat))
    (store : Store) (userID userName text id : String)
    (hid : newID rnd = some id) (hfresh : store.lookup id = none)
    (hack : s.InteractionRespond prayerAck = true)
    (hcfg : cfg.modChannelID ≠ cfg.publicChannelID) :
    ∃ store' calls, handlePrayer cfg s rnd store userID userName text = some (store', calls) ∧
      store'.lookup id = some { UserID := userID, Username := userName, Text := text } ∧
      (∀ k, k ≠ id → store'.lookup k = store.lookup k) ∧
      store'.keys.length = store.keys.length + 1 ∧
      messagesTo cfg.publicChannelID calls = [] ∧
      ∃ msg accept reject, messagesTo cfg.modChannelID calls =
          [.ChannelMessageSendComplex cfg.modChannelID msg] ∧
        (∃ pre post, msg.Content = pre ++ userName ++ post) ∧
        msg.Embeds.map MessageEmbed.Description = [text] ∧
        msg.Components = [[accept, reject]] ∧
        accept.CustomID = "accept:" ++ id ∧ reject.CustomID = "reject:" ++ id := by
  refine ⟨_, _, handlePrayer_acked cfg s rnd store userID userName text id hid hack,
    AList.lookup_insert store, fun k hk => lookup_insert_of_ne store id k _ hk,
    keys_length_insert_fresh store id _ hfresh, ?_, modMessage userName text id, _, _, ?_,
    ⟨"New prayer request from **", "**:", rfl⟩, rfl, rfl, rfl, rfl⟩
  · cases s.ChannelMessageSendComplex cfg.modChannelID (modMessage userName text id) <;>
      simp [messagesTo, hcfg]
  · cases s.ChannelMessageSendComplex cfg.modChannelID (modMessage userName text id) <;>
      simp [messagesTo]

theorem submission_stored_and_forwarded_witness :
    ∃ store' calls,
      handlePrayer cfg0 okSession (some [0, 1, 35, 69, 103, 137, 171, 255]) store2
        "u1" "Alice" "help me" = some (store', calls) ∧
      store'.lookup "000123456789abff" =
        some { UserID := "u1", Username := "Alice", Text := "help me" } ∧
      (∀ k, k ≠ "000123456789abff" → store'.lookup k = store2.lookup k) ∧
      store'.keys.length = store2.keys.length + 1 ∧
      messagesTo cfg0.publicChannelID calls = [] ∧
      ∃ msg accept reject, messagesTo cfg0.modChannelID calls =
          [.ChannelMessageSendComplex cfg0.modChannelID msg] ∧
        (∃ pre post, msg.Content = pre ++ "Alice" ++ post) ∧
        msg.Embeds.map MessageEmbed.Description = ["help me"] ∧
        msg.Components = [[accept, reject]] ∧
        accept.CustomID = "accept:" ++ "000123456789abff" ∧
        reject.CustomID = "reject:" ++ "000123456789abff" :=
  submission_stored_and_forwarded cfg0 okSession (some [0, 1, 35, 69, 103, 137, 171, 255])
    store2 "u1" "Alice" "help me" "000123456789abff"
    (by decide) (by decide) (by decide) (by decide)

/-- C7, as stated, fails: on a platform whose acknowledgment fails, `handlePrayer` stores the
request and then returns without sending anything to the moderation channel. -/
theorem failed_ack_sends_no_moderation_message :
    noAckSession.InteractionRespond prayerAck = false ∧
      (handlePrayer cfg0 noAckSession (some [0, 1, 35, 69, 103, 137, 171, 255]) ∅
        "u1" "Alice" "help me").map (fun r => (r.1.lookup "000123456789abff", r.2)) =
        some (some alice,
          [.InteractionRespond prayerAck, .Println "respond(/prayer) failed:"]) ∧
      (handlePrayer cfg0 noAckSession (some [0, 1, 35, 69, 103, 137, 171, 255]) ∅
        "u1" "Alice" "help me").map (fun r => messagesTo cfg0.modChannelID r.2) =
        some [] := by
  decide

/-- C7, amended: for every submission whose acknowledgment call fails, `handlePrayer` keeps the
stored request in the store (no rollback, every other entry unchanged) and then stops: it logs
the failure and sends no message to the moderation channel. -/
theorem failed_ack_keeps_request_and_stops (cfg : Config) (s : Session)
    (rnd : Option (List Nat)) (store : Store) (userID userName text id : String)
    (hid : newID rnd = some id) (hack : s.InteractionRespond prayerAck = false) :
    ∃ store' calls, handlePrayer cfg s rnd store userID userName text = some (store', calls) ∧
      store'.lookup id = some { UserID := userID, Username := userName, Text := text } ∧
      (∀ k, k ≠ id → store'.lookup k = store.lookup k) ∧
      calls = [.InteractionRespond prayerAck, .Println "respond(/prayer) failed:"] ∧
      messagesTo cfg.modChannelID calls = [] :=
  ⟨_, _, handlePrayer_not_acked cfg s rnd store userID userName text id hid hack,
    AList.lookup_insert store, fun k hk => lookup_insert_of_ne store id k _ hk, rfl, rfl⟩

theorem failed_ack_keeps_request_and_stops_witness :
    ∃ store' calls,
      handlePrayer cfg0 noAckSession (some [0, 1, 35, 69, 103, 137, 171, 255]) store2
        "u1" "Alice" "help me" = some (store', calls) ∧
      store'.lookup "000123456789abff" =
        some { UserID := "u1", Username := "Alice", Text := "help me" } ∧
      (∀ k, k ≠ "000123456789abff" → store'.lookup k = store2.lookup k) ∧
      calls = [.InteractionRespond prayerAck, .Println "respond(/prayer) failed:"] ∧
      messagesTo cfg0.modChannelID calls = [] :=
  failed_ack_keeps_request_and_stops cfg0 noAckSession
    (some [0, 1, 35, 69, 103, 137, 171, 255]) store2 "u1" "Alice" "help me"
    "000123456789abff" (by decide) (by decide)

/-! ## Two decision events at once -/

theorem lookup_none_of_keys_nil (store : Store) (id : String) (h : store.keys = []) :
    store.lookup id = none := by
  rw [AList.lookup_eq_none, AList.mem_keys, h]
  exact List.not_mem_nil id

theorem run_alone_eq_handleButton (cfg : Config) (s s₂ : Session) (store : Store)
    (customID : String) :
    World.run cfg s s₂
        { store := store, writing := false, crashed := false, calls := [],
          first := .start customID, second := .returned }
        [.first, .first, .first, .first] =
      { store := (handleButton cfg s store customID).1, writing := false, crashed := false
        calls := (handleButton cfg s store customID).2
        first := .returned, second := .returned } := by
  simp only [World.run, List.foldl, handleButton]
  split
  · next action id hsplit =>
    by_cases hk : store.keys = []
    · simp [World.step, Goroutine.step, hsplit, hk, lookup_none_of_keys_nil store id hk]
    · cases hreq : store.lookup id with
      | none => simp [World.step, Goroutine.step, hsplit, hk, hreq]
      | some req =>
        cases hack : s.InteractionRespond buttonAck <;>
          simp [World.step, Goroutine.step, hsplit, hk, hreq, hack]
  · next hsplit =>
    simp [World.step, Goroutine.step]

/-- C9 fails on the code: the store holds `alice` under the identifier, an accept and a reject
event for it are handled at once, and both lookups come before both deletes, which follow one
another.  No access to the map meets the write mark, both runs return, and the request is both
posted to the public channel and rejected by a direct notice: two side effects. -/
theorem interleaved_decisions_both_act :
    store0.lookup "000123456789abff" = some alice ∧
      racedWorld.crashed = false ∧ racedWorld.done ∧
      sessionCalls racedWorld.calls =
        [.InteractionRespond { RespType := .DeferredMessageUpdate, Data := none },
          .ChannelMessageSend "public" ("🙏 **Prayer Request:**\n" ++ "help me"),
          .InteractionResponseEdit
            { Content := "✅ Prayer request approved and posted.", Embeds := [], Components := [] },
          .InteractionRespond { RespType := .DeferredMessageUpdate, Data := none },
          .InteractionResponseEdit
            { Content := "❌ Prayer request rejected.", Embeds := [], Components := [] },
          .UserChannelCreate "u1",
          .ChannelMessageSend "dm-u1"
            "⚠️ Your prayer request was not approved by the moderators."] := by
  decide

theorem overlapping_lookup_aborts :
    overlappedWorld.crashed = true ∧ overlappedWorld.second = .start "reject:000123456789abff" ∧
      overlappedWorld.store.lookup "000123456789abff" = some alice := by
  decide

end PrayerBot
